import Mathlib

/-!
Verification of the LVDBE bass-enhancement process routine
(media/libeffects/lvm/lib/Bass/src/LVDBE_Process.cpp).

The routine is shallow-embedded over an explicit flat scratch buffer
(a list of samples).  Samples (LVM_FLOAT) are modelled as integers; the
off-file collaborator primitives (Copy_Float, the two biquad filters,
FromMcToMono_Float, AGC_MIX_VOL_Mc1Mon_D32_WRA and the two smoothed
mixers) are uninterpreted functions bundled in a `Collaborators`
structure, each returning the samples it writes together with its
updated state.
-/

set_option autoImplicit false

namespace LVDBE

/-- Modelled from the spec: the operating mode of the effect is ON or OFF
(LVDBE.h, which declares LVDBE_Mode_en, is not in src). -/
inductive LVDBE_Mode_en where
  | LVDBE_OFF
  | LVDBE_ON
deriving DecidableEq

/-- Modelled from the spec: the high-pass-filter select flag
(LVDBE.h, which declares LVDBE_FilterSelect_en, is not in src). -/
inductive LVDBE_Hpf_en where
  | LVDBE_HPF_OFF
  | LVDBE_HPF_ON
deriving DecidableEq

/-- Return status of the process routine: the source uses exactly
LVDBE_SUCCESS and LVDBE_TOOMANYSAMPLES. -/
inductive LVDBE_ReturnStatus_en where
  | LVDBE_SUCCESS
  | LVDBE_TOOMANYSAMPLES
deriving DecidableEq

/-- Modelled from the spec: a smoothed-mixer stream carries a current gain
and a target gain; equality signals a settled stream (LVC_Mixer.h is not
in src).  Gains are modelled as integers; the routine only compares them. -/
structure LVMixer3_st where
  Current : Int
  Target : Int
deriving DecidableEq

/-- Accessor used by the routine, LVC_Mixer_GetCurrent. -/
def LVC_Mixer_GetCurrent (s : LVMixer3_st) : Int := s.Current

/-- Accessor used by the routine, LVC_Mixer_GetTarget. -/
def LVC_Mixer_GetTarget (s : LVMixer3_st) : Int := s.Target

/-- Modelled from the spec: the two-stream bypass mixer state; stream 0
feeds the enhanced path into the final blend, stream 1 the bypass path.
The rest of the mixer state is opaque (type parameter M). -/
structure LVMixer3_2St_st (M : Type) where
  MixerStream0 : LVMixer3_st
  MixerStream1 : LVMixer3_st
  rest : M
deriving DecidableEq

/-- Modelled from the spec: the parameter block fields the routine reads
(LVDBE_Private.h is not in src). -/
structure LVDBE_Params_t where
  OperatingMode : LVDBE_Mode_en
  HPFSelect : LVDBE_Hpf_en
  NrChannels : Nat
deriving DecidableEq

/-- Modelled from the spec: the capabilities block field the routine reads. -/
structure LVDBE_Capabilities_t where
  MaxBlockSize : Nat
deriving DecidableEq

/-- Modelled from the spec: the mutable data block of the instance: AGC
state (opaque A), bypass-volume mixer state (opaque V) and the two-stream
bypass mixer. -/
structure LVDBE_Data_t (A V M : Type) where
  AGCInstance : A
  BypassVolume : V
  BypassMixer : LVMixer3_2St_st M
deriving DecidableEq

/-- Modelled from the spec: the instance state bundle the routine borrows:
configuration, capabilities, the two biquad filter states (opaque H and B)
and the data block. -/
structure LVDBE_Instance_t (H B A V M : Type) where
  Params : LVDBE_Params_t
  Capabilities : LVDBE_Capabilities_t
  pHPFBiquad : H
  pBPFBiquad : B
  pData : LVDBE_Data_t A V M
deriving DecidableEq

/-- Narrowing of a signed 32-bit value to a signed 16-bit value, the
(LVM_INT16) casts of the source. -/
def toInt16 (n : Int) : Int := (n + 32768) % 65536 - 32768

/-- Modelled from the spec: the collaborator primitives called by the
routine (Copy_Float, BiquadFilter::process for the high-pass and band-pass
filters, FromMcToMono_Float, AGC_MIX_VOL_Mc1Mon_D32_WRA,
LVC_MixSoft_Mc_D16C31_SAT and LVC_MixSoft_2Mc_D16C31_SAT) live elsewhere
in the repository and are treated as opaque black boxes; each is an
uninterpreted function returning the samples it writes and its updated
state. -/
structure Collaborators (H B A V M : Type) where
  copy_Float : List Int → Int → List Int
  hpfProcess : H → List Int → Nat → List Int × H
  bpfProcess : B → List Int → Nat → List Int × B
  fromMcToMono_Float : List Int → Int → Int → List Int
  agcMixVol : A → List Int → List Int → Nat → Nat → List Int × A
  mixSoft_Mc : V → List Int → Int → Int → List Int × V
  mixSoft_2Mc : LVMixer3_2St_st M → List Int → List Int → Int → Int →
      List Int × LVMixer3_2St_st M

/-- Overwrite the region of `mem` starting at `off` with `vals`. -/
def writeRegion (mem : List Int) (off : Nat) (vals : List Int) : List Int :=
  mem.take off ++ (vals ++ mem.drop (off + vals.length))

/-- Read `len` samples of `mem` starting at `off`. -/
def readRegion (mem : List Int) (off len : Nat) : List Int :=
  (mem.drop off).take len

variable {H B A V M : Type}

/-- Condition guarding the DBE (enhanced) path: operating mode ON, or the
bypass mixer stream 0 still transitioning. -/
def dbePathCondition (inst : LVDBE_Instance_t H B A V M) : Bool :=
  decide (inst.Params.OperatingMode = LVDBE_Mode_en.LVDBE_ON) ||
  decide (LVC_Mixer_GetCurrent inst.pData.BypassMixer.MixerStream0 ≠
          LVC_Mixer_GetTarget inst.pData.BypassMixer.MixerStream0)

/-- Condition guarding the bypass volume path: operating mode OFF, or the
bypass mixer stream 1 still transitioning. -/
def bypassPathCondition (inst : LVDBE_Instance_t H B A V M) : Bool :=
  decide (inst.Params.OperatingMode = LVDBE_Mode_en.LVDBE_OFF) ||
  decide (LVC_Mixer_GetCurrent inst.pData.BypassMixer.MixerStream1 ≠
          LVC_Mixer_GetTarget inst.pData.BypassMixer.MixerStream1)

/-- The DBE path block of the routine (source lines 115 to 153): copy the
input into the enhanced-path scratch region, apply the high-pass filter in
place when selected, downmix to the mono region, apply the band-pass
filter in place on the mono region, then AGC-and-mix into the
enhanced-path region.  Returns the updated scratch buffer and instance. -/
def dbePathRun (c : Collaborators H B A V M) (inst : LVDBE_Instance_t H B A V M)
    (scratch pInData : List Int) (NrFrames : Nat) :
    List Int × LVDBE_Instance_t H B A V M :=
  let NrChannels := inst.Params.NrChannels
  let NrSamples := NrChannels * NrFrames
  let s1 := writeRegion scratch 0 (c.copy_Float pInData (toInt16 (NrSamples : Int)))
  let step2 : List Int × H :=
    if inst.Params.HPFSelect = LVDBE_Hpf_en.LVDBE_HPF_ON then
      let hpfR := c.hpfProcess inst.pHPFBiquad (readRegion s1 0 NrSamples) NrFrames
      (writeRegion s1 0 hpfR.1, hpfR.2)
    else (s1, inst.pHPFBiquad)
  let s2 := step2.1
  let mono := c.fromMcToMono_Float (readRegion s2 0 NrSamples)
      (toInt16 (NrFrames : Int)) (toInt16 (NrChannels : Int))
  let s3 := writeRegion s2 NrSamples mono
  let bpfR := c.bpfProcess inst.pBPFBiquad (readRegion s3 NrSamples NrFrames) NrFrames
  let s4 := writeRegion s3 NrSamples bpfR.1
  let agcR := c.agcMixVol inst.pData.AGCInstance (readRegion s4 0 NrSamples)
      (readRegion s4 NrSamples NrFrames) NrFrames NrChannels
  let s5 := writeRegion s4 0 agcR.1
  (s5, { inst with
         pHPFBiquad := step2.2
         pBPFBiquad := bpfR.2
         pData := { inst.pData with AGCInstance := agcR.2 } })

/-- The bypass volume block of the routine (source lines 160 to 164): the
smoothed saturating volume adjustment of the raw input, written into the
reused scratch region at offset NrSamples. -/
def bypassVolumeRun (c : Collaborators H B A V M) (inst : LVDBE_Instance_t H B A V M)
    (scratch pInData : List Int) (NrFrames : Nat) :
    List Int × LVDBE_Instance_t H B A V M :=
  let NrChannels := inst.Params.NrChannels
  let NrSamples := NrChannels * NrFrames
  let volR := c.mixSoft_Mc inst.pData.BypassVolume pInData
      (toInt16 (NrFrames : Int)) (toInt16 (NrChannels : Int))
  (writeRegion scratch NrSamples volR.1,
   { inst with pData := { inst.pData with BypassVolume := volR.2 } })

/-- Shallow embedding of LVDBE_Process.  The scratch buffer is the
instance's pScratch region; pMono and pScratchVol alias the region at
offset NrSamples.  Returns the status, the updated instance, the updated
scratch buffer and the updated output buffer. -/
def LVDBE_Process (c : Collaborators H B A V M) (inst : LVDBE_Instance_t H B A V M)
    (scratch pInData pOutData : List Int) (NrFrames : Nat) :
    LVDBE_ReturnStatus_en × LVDBE_Instance_t H B A V M × List Int × List Int :=
  let NrChannels := inst.Params.NrChannels
  let NrSamples := NrChannels * NrFrames
  if NrFrames > inst.Capabilities.MaxBlockSize then
    (LVDBE_ReturnStatus_en.LVDBE_TOOMANYSAMPLES, inst, scratch, pOutData)
  else
    let step1 :=
      if dbePathCondition inst then dbePathRun c inst scratch pInData NrFrames
      else (writeRegion scratch 0 (List.replicate NrSamples 0), inst)
    let step2 :=
      if bypassPathCondition step1.2 then
        bypassVolumeRun c step1.2 step1.1 pInData NrFrames
      else (writeRegion step1.1 NrSamples (List.replicate NrSamples 0), step1.2)
    let mixR := c.mixSoft_2Mc step2.2.pData.BypassMixer
        (readRegion step2.1 0 NrSamples) (readRegion step2.1 NrSamples NrSamples)
        (toInt16 (NrFrames : Int)) (toInt16 (NrChannels : Int))
    (LVDBE_ReturnStatus_en.LVDBE_SUCCESS,
     { step2.2 with pData := { step2.2.pData with BypassMixer := mixR.2 } },
     step2.1,
     writeRegion pOutData 0 mixR.1)

/-- Pure functional specification of the DBE path: the ordered composition
copy, optional high-pass, downmix, band-pass, AGC-and-mix, computed with
no scratch memory.  Returns the final enhanced-path region together with
the updated high-pass, band-pass and AGC states. -/
def dbePathSpec (c : Collaborators H B A V M) (inst : LVDBE_Instance_t H B A V M)
    (pInData : List Int) (NrFrames : Nat) : List Int × H × B × A :=
  let NrChannels := inst.Params.NrChannels
  let NrSamples := NrChannels * NrFrames
  let copied := c.copy_Float pInData (toInt16 (NrSamples : Int))
  let hpfR := c.hpfProcess inst.pHPFBiquad copied NrFrames
  let filtered :=
    if inst.Params.HPFSelect = LVDBE_Hpf_en.LVDBE_HPF_ON then hpfR.1 else copied
  let hpfSt :=
    if inst.Params.HPFSelect = LVDBE_Hpf_en.LVDBE_HPF_ON then hpfR.2
    else inst.pHPFBiquad
  let mono := c.fromMcToMono_Float filtered (toInt16 (NrFrames : Int))
      (toInt16 (NrChannels : Int))
  let bpfR := c.bpfProcess inst.pBPFBiquad mono NrFrames
  let agcR := c.agcMixVol inst.pData.AGCInstance filtered bpfR.1 NrFrames NrChannels
  (agcR.1, hpfSt, bpfR.2, agcR.2)

/-- The enhanced-path region as left in scratch by a successful call:
the DBE pipeline result when the DBE condition holds, a zero fill
otherwise. -/
def enhancedRegion (c : Collaborators H B A V M) (inst : LVDBE_Instance_t H B A V M)
    (pInData : List Int) (NrFrames : Nat) : List Int :=
  if dbePathCondition inst then (dbePathSpec c inst pInData NrFrames).1
  else List.replicate (inst.Params.NrChannels * NrFrames) 0

/-- Pure functional specification of the bypass volume path: the smoothed
saturating volume adjustment of the raw input, with the updated bypass
volume mixer state. -/
def bypassVolumeSpec (c : Collaborators H B A V M) (inst : LVDBE_Instance_t H B A V M)
    (pInData : List Int) (NrFrames : Nat) : List Int × V :=
  c.mixSoft_Mc inst.pData.BypassVolume pInData (toInt16 (NrFrames : Int))
    (toInt16 (inst.Params.NrChannels : Int))

/-- The bypass-volume region as left in scratch by a successful call:
the volume adjustment when the bypass condition holds, a zero fill
otherwise. -/
def bypassRegion (c : Collaborators H B A V M) (inst : LVDBE_Instance_t H B A V M)
    (pInData : List Int) (NrFrames : Nat) : List Int :=
  if bypassPathCondition inst then (bypassVolumeSpec c inst pInData NrFrames).1
  else List.replicate (inst.Params.NrChannels * NrFrames) 0

/-- Pure functional specification of the final two-input smoothed
saturating mix of the enhanced-path region and the bypass-volume region. -/
def mix2Spec (c : Collaborators H B A V M) (inst : LVDBE_Instance_t H B A V M)
    (pInData : List Int) (NrFrames : Nat) : List Int × LVMixer3_2St_st M :=
  c.mixSoft_2Mc inst.pData.BypassMixer (enhancedRegion c inst pInData NrFrames)
    (bypassRegion c inst pInData NrFrames) (toInt16 (NrFrames : Int))
    (toInt16 (inst.Params.NrChannels : Int))

/-- The instance state after a successful call, computed purely. -/
def finalInstanceSpec (c : Collaborators H B A V M) (inst : LVDBE_Instance_t H B A V M)
    (pInData : List Int) (NrFrames : Nat) : LVDBE_Instance_t H B A V M :=
  { Params := inst.Params
    Capabilities := inst.Capabilities
    pHPFBiquad :=
      if dbePathCondition inst then (dbePathSpec c inst pInData NrFrames).2.1
      else inst.pHPFBiquad
    pBPFBiquad :=
      if dbePathCondition inst then (dbePathSpec c inst pInData NrFrames).2.2.1
      else inst.pBPFBiquad
    pData :=
      { AGCInstance :=
          if dbePathCondition inst then (dbePathSpec c inst pInData NrFrames).2.2.2
          else inst.pData.AGCInstance
        BypassVolume :=
          if bypassPathCondition inst then (bypassVolumeSpec c inst pInData NrFrames).2
          else inst.pData.BypassVolume
        BypassMixer := (mix2Spec c inst pInData NrFrames).2 } }

/-- Length contracts of the collaborator primitives: each writes exactly
the number of samples determined by the counts it receives (the counts as
the routine passes them, narrowing included). -/
structure CollabLengths (c : Collaborators H B A V M) : Prop where
  copy_len : ∀ src n, (c.copy_Float src n).length = n.toNat
  hpf_len : ∀ st src f, (c.hpfProcess st src f).1.length = src.length
  bpf_len : ∀ st src f, (c.bpfProcess st src f).1.length = src.length
  mono_len : ∀ src f ch, (c.fromMcToMono_Float src f ch).length = f.toNat
  agc_len : ∀ st src mono f ch, (c.agcMixVol st src mono f ch).1.length = src.length
  vol_len : ∀ st src f ch, (c.mixSoft_Mc st src f ch).1.length = (f * ch).toNat
  mix2_len : ∀ st a b f ch, (c.mixSoft_2Mc st a b f ch).1.length = (f * ch).toNat

theorem toInt16_coe_eq (n : Nat) (h : n ≤ 32767) : toInt16 (n : Int) = (n : Int) := by
  unfold toInt16
  omega

theorem writeRegion_length {mem : List Int} {off : Nat} {vals : List Int}
    (h : off + vals.length ≤ mem.length) :
    (writeRegion mem off vals).length = mem.length := by
  simp [writeRegion]
  omega

theorem readRegion_writeRegion {mem : List Int} {off : Nat} {vals : List Int}
    (h : off + vals.length ≤ mem.length) :
    readRegion (writeRegion mem off vals) off vals.length = vals := by
  unfold readRegion writeRegion
  rw [List.drop_append_of_le_length (by simp; omega)]
  rw [List.drop_eq_nil_of_le (by simp)]
  rw [List.nil_append]
  rw [List.take_append_of_le_length (le_refl vals.length)]
  rw [List.take_length]

theorem readRegion_writeRegion_before {mem : List Int} {off1 len off2 : Nat}
    {vals : List Int} (h1 : off1 + len ≤ off2) (h2 : off2 ≤ mem.length) :
    readRegion (writeRegion mem off2 vals) off1 len = readRegion mem off1 len := by
  have ht : (mem.take off2).length = off2 := by
    simp
    omega
  unfold readRegion writeRegion
  rw [List.drop_append_of_le_length (by omega)]
  rw [List.take_append_of_le_length (by simp; omega)]
  rw [List.drop_take]
  rw [List.take_take]
  rw [Nat.min_eq_left (by omega)]

theorem dbePathRun_spec (c : Collaborators H B A V M) (inst : LVDBE_Instance_t H B A V M)
    (scratch pInData : List Int) (NrFrames : Nat)
    (hlen : CollabLengths c)
    (hch : 1 ≤ inst.Params.NrChannels)
    (hns : inst.Params.NrChannels * NrFrames ≤ 32767)
    (hscr : 2 * (inst.Params.NrChannels * NrFrames) ≤ scratch.length) :
    (dbePathRun c inst scratch pInData NrFrames).1.length = scratch.length ∧
    readRegion (dbePathRun c inst scratch pInData NrFrames).1 0
        (inst.Params.NrChannels * NrFrames) = (dbePathSpec c inst pInData NrFrames).1 ∧
    (dbePathRun c inst scratch pInData NrFrames).2 =
      { inst with
        pHPFBiquad := (dbePathSpec c inst pInData NrFrames).2.1
        pBPFBiquad := (dbePathSpec c inst pInData NrFrames).2.2.1
        pData := { inst.pData with
                   AGCInstance := (dbePathSpec c inst pInData NrFrames).2.2.2 } } := by
  have hfn : NrFrames ≤ inst.Params.NrChannels * NrFrames :=
    Nat.le_mul_of_pos_left NrFrames hch
  have hf : NrFrames ≤ 32767 := le_trans hfn hns
  simp only [dbePathRun, dbePathSpec]
  set ch := inst.Params.NrChannels with hchdef
  set n := ch * NrFrames with hndef
  set copied := c.copy_Float pInData (toInt16 (n : Int)) with hcop
  have hcopy : copied.length = n := by
    rw [hcop, hlen.copy_len, toInt16_coe_eq n hns]
    simp
  set s1 := writeRegion scratch 0 copied with hs1
  have hs1len : s1.length = scratch.length := by
    rw [hs1]
    exact writeRegion_length (by omega)
  have e1 : readRegion s1 0 n = copied := by
    rw [hs1, ← hcopy]
    exact readRegion_writeRegion (by omega)
  by_cases hhpf : inst.Params.HPFSelect = LVDBE_Hpf_en.LVDBE_HPF_ON
  · rw [if_pos hhpf, if_pos hhpf, if_pos hhpf]
    rw [e1]
    set hout := (c.hpfProcess inst.pHPFBiquad copied NrFrames).1 with hhout
    have hhoutlen : hout.length = n := by
      rw [hhout, hlen.hpf_len, hcopy]
    set s2 := writeRegion s1 0 hout with hs2
    have hs2len : s2.length = scratch.length := by
      rw [hs2, writeRegion_length (by omega), hs1len]
    have e2 : readRegion s2 0 n = hout := by
      rw [hs2, ← hhoutlen]
      exact readRegion_writeRegion (by omega)
    rw [e2]
    set mono := c.fromMcToMono_Float hout (toInt16 (NrFrames : Int))
        (toInt16 (ch : Int)) with hmono
    have hmonolen : mono.length = NrFrames := by
      rw [hmono, hlen.mono_len, toInt16_coe_eq NrFrames hf]
      simp
    set s3 := writeRegion s2 n mono with hs3
    have hs3len : s3.length = scratch.length := by
      rw [hs3, writeRegion_length (by omega), hs2len]
    have e3 : readRegion s3 n NrFrames = mono := by
      rw [hs3, ← hmonolen]
      exact readRegion_writeRegion (by omega)
    rw [e3]
    set bp := (c.bpfProcess inst.pBPFBiquad mono NrFrames).1 with hbp
    have hbplen : bp.length = NrFrames := by
      rw [hbp, hlen.bpf_len, hmonolen]
    set s4 := writeRegion s3 n bp with hs4
    have hs4len : s4.length = scratch.length := by
      rw [hs4, writeRegion_length (by omega), hs3len]
    have e4a : readRegion s4 0 n = hout := by
      rw [hs4, readRegion_writeRegion_before (by omega) (by omega), hs3,
          readRegion_writeRegion_before (by omega) (by omega), e2]
    have e4b : readRegion s4 n NrFrames = bp := by
      rw [hs4, ← hbplen]
      exact readRegion_writeRegion (by omega)
    rw [e4a, e4b]
    set agcOut := (c.agcMixVol inst.pData.AGCInstance hout bp NrFrames ch).1 with hagc
    have hagclen : agcOut.length = n := by
      rw [hagc, hlen.agc_len, hhoutlen]
    refine ⟨?_, ?_, rfl⟩
    · rw [writeRegion_length (by omega), hs4len]
    · rw [← hagclen]
      exact readRegion_writeRegion (by omega)
  · rw [if_neg hhpf, if_neg hhpf, if_neg hhpf]
    rw [e1]
    set mono := c.fromMcToMono_Float copied (toInt16 (NrFrames : Int))
        (toInt16 (ch : Int)) with hmono
    have hmonolen : mono.length = NrFrames := by
      rw [hmono, hlen.mono_len, toInt16_coe_eq NrFrames hf]
      simp
    set s3 := writeRegion s1 n mono with hs3
    have hs3len : s3.length = scratch.length := by
      rw [hs3, writeRegion_length (by omega), hs1len]
    have e3 : readRegion s3 n NrFrames = mono := by
      rw [hs3, ← hmonolen]
      exact readRegion_writeRegion (by omega)
    rw [e3]
    set bp := (c.bpfProcess inst.pBPFBiquad mono NrFrames).1 with hbp
    have hbplen : bp.length = NrFrames := by
      rw [hbp, hlen.bpf_len, hmonolen]
    set s4 := writeRegion s3 n bp with hs4
    have hs4len : s4.length = scratch.length := by
      rw [hs4, writeRegion_length (by omega), hs3len]
    have e4a : readRegion s4 0 n = copied := by
      rw [hs4, readRegion_writeRegion_before (by omega) (by omega), hs3,
          readRegion_writeRegion_before (by omega) (by omega), e1]
    have e4b : readRegion s4 n NrFrames = bp := by
      rw [hs4, ← hbplen]
      exact readRegion_writeRegion (by omega)
    rw [e4a, e4b]
    set agcOut := (c.agcMixVol inst.pData.AGCInstance copied bp NrFrames ch).1 with hagc
    have hagclen : agcOut.length = n := by
      rw [hagc, hlen.agc_len, hcopy]
    refine ⟨?_, ?_, rfl⟩
    · rw [writeRegion_length (by omega), hs4len]
    · rw [← hagclen]
      exact readRegion_writeRegion (by omega)

theorem narrowed_prod_toNat (f ch : Nat) (hch : 1 ≤ ch) (hns : ch * f ≤ 32767) :
    (toInt16 (f : Int) * toInt16 (ch : Int)).toNat = ch * f := by
  rcases Nat.eq_zero_or_pos f with hf0 | hfpos
  · subst hf0
    have h0 : toInt16 ((0 : Nat) : Int) = 0 := by decide
    rw [h0, zero_mul]
    simp
  · have hf32 : f ≤ 32767 := le_trans (Nat.le_mul_of_pos_left f hch) hns
    have hc32 : ch ≤ 32767 := le_trans (Nat.le_mul_of_pos_right ch hfpos) hns
    rw [toInt16_coe_eq f hf32, toInt16_coe_eq ch hc32, ← Nat.cast_mul,
        Nat.mul_comm f ch]
    exact Int.toNat_natCast (ch * f)

theorem bypassVolumeRun_spec (c : Collaborators H B A V M) (inst : LVDBE_Instance_t H B A V M)
    (scratch pInData : List Int) (NrFrames : Nat)
    (hlen : CollabLengths c)
    (hch : 1 ≤ inst.Params.NrChannels)
    (hns : inst.Params.NrChannels * NrFrames ≤ 32767)
    (hscr : 2 * (inst.Params.NrChannels * NrFrames) ≤ scratch.length) :
    (bypassVolumeRun c inst scratch pInData NrFrames).1.length = scratch.length ∧
    readRegion (bypassVolumeRun c inst scratch pInData NrFrames).1
        (inst.Params.NrChannels * NrFrames) (inst.Params.NrChannels * NrFrames) =
      (bypassVolumeSpec c inst pInData NrFrames).1 ∧
    readRegion (bypassVolumeRun c inst scratch pInData NrFrames).1 0
        (inst.Params.NrChannels * NrFrames) =
      readRegion scratch 0 (inst.Params.NrChannels * NrFrames) ∧
    (bypassVolumeRun c inst scratch pInData NrFrames).2 =
      { inst with pData := { inst.pData with
          BypassVolume := (bypassVolumeSpec c inst pInData NrFrames).2 } } := by
  simp only [bypassVolumeRun, bypassVolumeSpec]
  set ch := inst.Params.NrChannels with hchdef
  set n := ch * NrFrames with hndef
  set volOut := (c.mixSoft_Mc inst.pData.BypassVolume pInData (toInt16 (NrFrames : Int))
      (toInt16 (ch : Int))).1 with hvol
  have hvollen : volOut.length = n := by
    rw [hvol, hlen.vol_len, narrowed_prod_toNat NrFrames ch hch hns]
  refine ⟨writeRegion_length (by omega), ?_, ?_, by trivial⟩
  · rw [← hvollen]
    exact readRegion_writeRegion (by omega)
  · exact readRegion_writeRegion_before (by omega) (by omega)

theorem bypassPathCondition_dbeUpdate (inst : LVDBE_Instance_t H B A V M)
    (h : H) (b : B) (a : A) :
    bypassPathCondition { inst with pHPFBiquad := h, pBPFBiquad := b, pData := { inst.pData with AGCInstance := a } } = bypassPathCondition inst := rfl

theorem bypassVolumeRun_dbeUpdate_fst (c : Collaborators H B A V M)
    (inst : LVDBE_Instance_t H B A V M) (h : H) (b : B) (a : A)
    (scratch pInData : List Int) (NrFrames : Nat) :
    (bypassVolumeRun c { inst with pHPFBiquad := h, pBPFBiquad := b, pData := { inst.pData with AGCInstance := a } } scratch pInData NrFrames).1 =
    (bypassVolumeRun c inst scratch pInData NrFrames).1 := rfl

theorem bypassVolumeRun_dbeUpdate_snd (c : Collaborators H B A V M)
    (inst : LVDBE_Instance_t H B A V M) (h : H) (b : B) (a : A)
    (scratch pInData : List Int) (NrFrames : Nat) :
    (bypassVolumeRun c { inst with pHPFBiquad := h, pBPFBiquad := b, pData := { inst.pData with AGCInstance := a } } scratch pInData NrFrames).2 =
    { inst with pHPFBiquad := h, pBPFBiquad := b, pData := { inst.pData with AGCInstance := a, BypassVolume := (bypassVolumeSpec c inst pInData NrFrames).2 } } := rfl

theorem pathCondition_total (inst : LVDBE_Instance_t H B A V M)
    (h : dbePathCondition inst = false) : bypassPathCondition inst = true := by
  cases hmode : inst.Params.OperatingMode
  · simp [bypassPathCondition, hmode]
  · simp [dbePathCondition, hmode] at h

theorem LVDBE_Process_parts (c : Collaborators H B A V M) (inst : LVDBE_Instance_t H B A V M)
    (scratch pInData pOutData : List Int) (NrFrames : Nat)
    (hlen : CollabLengths c)
    (hch : 1 ≤ inst.Params.NrChannels)
    (hns : inst.Params.NrChannels * NrFrames ≤ 32767)
    (hscr : 2 * (inst.Params.NrChannels * NrFrames) ≤ scratch.length)
    (hmax : NrFrames ≤ inst.Capabilities.MaxBlockSize) :
    (LVDBE_Process c inst scratch pInData pOutData NrFrames).1 =
      LVDBE_ReturnStatus_en.LVDBE_SUCCESS ∧
    (LVDBE_Process c inst scratch pInData pOutData NrFrames).2.1 =
      finalInstanceSpec c inst pInData NrFrames ∧
    readRegion (LVDBE_Process c inst scratch pInData pOutData NrFrames).2.2.1 0
      (inst.Params.NrChannels * NrFrames) = enhancedRegion c inst pInData NrFrames ∧
    readRegion (LVDBE_Process c inst scratch pInData pOutData NrFrames).2.2.1
      (inst.Params.NrChannels * NrFrames) (inst.Params.NrChannels * NrFrames) =
      bypassRegion c inst pInData NrFrames ∧
    (LVDBE_Process c inst scratch pInData pOutData NrFrames).2.2.2 =
      writeRegion pOutData 0 (mix2Spec c inst pInData NrFrames).1 := by
  simp only [LVDBE_Process]
  rw [if_neg (by omega : ¬ NrFrames > inst.Capabilities.MaxBlockSize)]
  set n := inst.Params.NrChannels * NrFrames with hndef
  by_cases hd : dbePathCondition inst = true
  · obtain ⟨L1, R1, I1⟩ := dbePathRun_spec c inst scratch pInData NrFrames hlen hch hns hscr
    simp only [if_pos hd]
    set s1 := (dbePathRun c inst scratch pInData NrFrames).1 with hs1def
    rw [I1, bypassPathCondition_dbeUpdate]
    by_cases hb : bypassPathCondition inst = true
    · simp only [if_pos hb, bypassVolumeRun_dbeUpdate_fst, bypassVolumeRun_dbeUpdate_snd]
      obtain ⟨L2, R2a, R2b, I2⟩ := bypassVolumeRun_spec c inst s1 pInData NrFrames hlen hch hns
        (by rw [L1]; exact hscr)
      rw [R2a, R2b, R1]
      simp only [finalInstanceSpec, mix2Spec, enhancedRegion, bypassRegion,
                 if_pos hd, if_pos hb]
      refine ⟨?_, ?_, ?_, ?_, ?_⟩ <;> trivial
    · simp only [if_neg hb]
      have hs1len : 2 * n ≤ s1.length := by rw [L1]; exact hscr
      have E2a : readRegion (writeRegion s1 n (List.replicate n 0)) n n =
          List.replicate n 0 := by
        have h := @readRegion_writeRegion s1 n (List.replicate n 0) (by simp; omega)
        simpa using h
      have E2b : readRegion (writeRegion s1 n (List.replicate n 0)) 0 n =
          readRegion s1 0 n := by
        have h := @readRegion_writeRegion_before s1 0 n n (List.replicate n 0)
          (by omega) (by omega)
        exact h
      rw [E2a, E2b, R1]
      simp only [finalInstanceSpec, mix2Spec, enhancedRegion, bypassRegion,
                 if_pos hd, if_neg hb]
      refine ⟨?_, ?_, ?_, ?_, ?_⟩ <;> trivial
  · simp only [if_neg hd]
    have hd2 : dbePathCondition inst = false := by
      revert hd
      cases dbePathCondition inst <;> simp
    set s1 := writeRegion scratch 0 (List.replicate n 0) with hs1def
    have L1 : s1.length = scratch.length := by
      rw [hs1def]
      exact writeRegion_length (by simp; omega)
    have R1 : readRegion s1 0 n = List.replicate n 0 := by
      have h := @readRegion_writeRegion scratch 0 (List.replicate n 0) (by simp; omega)
      simpa using h
    by_cases hb : bypassPathCondition inst = true
    · simp only [if_pos hb]
      obtain ⟨L2, R2a, R2b, I2⟩ := bypassVolumeRun_spec c inst s1 pInData NrFrames hlen hch hns
        (by rw [L1]; exact hscr)
      rw [I2, R2a, R2b, R1]
      simp only [finalInstanceSpec, mix2Spec, enhancedRegion, bypassRegion,
                 if_neg hd, if_pos hb]
      refine ⟨?_, ?_, ?_, ?_, ?_⟩ <;> trivial
    · exact absurd (pathCondition_total inst hd2) hb

theorem dbePathSpec_length (c : Collaborators H B A V M) (inst : LVDBE_Instance_t H B A V M)
    (pInData : List Int) (NrFrames : Nat) (hlen : CollabLengths c)
    (hns : inst.Params.NrChannels * NrFrames ≤ 32767) :
    (dbePathSpec c inst pInData NrFrames).1.length =
      inst.Params.NrChannels * NrFrames := by
  simp only [dbePathSpec]
  rw [hlen.agc_len]
  by_cases hhpf : inst.Params.HPFSelect = LVDBE_Hpf_en.LVDBE_HPF_ON
  · rw [if_pos hhpf, hlen.hpf_len, hlen.copy_len, toInt16_coe_eq _ hns,
        Int.toNat_natCast]
  · rw [if_neg hhpf, hlen.copy_len, toInt16_coe_eq _ hns, Int.toNat_natCast]

theorem writeRegion_drop (mem vals : List Int) :
    (writeRegion mem 0 vals).drop vals.length = mem.drop vals.length := by
  simp [writeRegion, List.drop_left]

/-- Pad or truncate a list to length k, filling with zeros. -/
def padTo (k : Nat) (l : List Int) : List Int :=
  l.take k ++ List.replicate (k - l.length) 0

theorem padTo_length (k : Nat) (l : List Int) : (padTo k l).length = k := by
  simp [padTo]
  omega

theorem padTo_of_length (k : Nat) (l : List Int) (h : l.length = k) : padTo k l = l := by
  subst h
  simp [padTo]

/-- Modelled from the spec: a concrete instantiation of the collaborator
black boxes, used to evaluate the embedding on concrete inputs: identity
filters and AGC, padding copy and downmix, and a final two-input mixer
that passes its second input through unchanged (the settled blend whose
enhanced-path gain is zero and bypass gain is unity). -/
def collabSecond : Collaborators Unit Unit Unit Unit Unit where
  copy_Float src k := padTo k.toNat src
  hpfProcess st src _f := (src, st)
  bpfProcess st src _f := (src, st)
  fromMcToMono_Float src f _ch := padTo f.toNat src
  agcMixVol st src _mono _f _ch := (src, st)
  mixSoft_Mc st src f ch := (padTo (f * ch).toNat src, st)
  mixSoft_2Mc st _a b f ch := (padTo (f * ch).toNat b, st)

/-- Modelled from the spec: like collabSecond, but the final two-input
mixer passes its first input through unchanged (the settled blend whose
enhanced-path gain is unity and bypass gain is zero). -/
def collabFirst : Collaborators Unit Unit Unit Unit Unit :=
  { collabSecond with mixSoft_2Mc := fun st a _b f ch => (padTo (f * ch).toNat a, st) }

theorem collabSecond_lengths : CollabLengths collabSecond := by
  constructor <;> intros <;> simp [collabSecond, padTo_length]

theorem collabFirst_lengths : CollabLengths collabFirst := by
  constructor <;> intros <;> simp [collabFirst, collabSecond, padTo_length]

theorem collabSecond_mix2_pass (st : LVMixer3_2St_st Unit) (a b : List Int) (f ch : Nat)
    (hch : 1 ≤ ch) (hns : ch * f ≤ 32767) (hb : b.length = ch * f) :
    (collabSecond.mixSoft_2Mc st a b (toInt16 (f : Int)) (toInt16 (ch : Int))).1 = b := by
  show padTo (toInt16 (f : Int) * toInt16 (ch : Int)).toNat b = b
  rw [narrowed_prod_toNat f ch hch hns]
  exact padTo_of_length _ b hb

theorem collabFirst_mix2_pass (st : LVMixer3_2St_st Unit) (a b : List Int) (f ch : Nat)
    (hch : 1 ≤ ch) (hns : ch * f ≤ 32767) (ha : a.length = ch * f) :
    (collabFirst.mixSoft_2Mc st a b (toInt16 (f : Int)) (toInt16 (ch : Int))).1 = a := by
  show padTo (toInt16 (f : Int) * toInt16 (ch : Int)).toNat a = a
  rw [narrowed_prod_toNat f ch hch hns]
  exact padTo_of_length _ a ha

/-- Concrete instance: mode ON, high-pass filter off, two channels,
maximum block size eight, both blend streams settled. -/
def instON : LVDBE_Instance_t Unit Unit Unit Unit Unit where
  Params := { OperatingMode := LVDBE_Mode_en.LVDBE_ON, HPFSelect := LVDBE_Hpf_en.LVDBE_HPF_OFF, NrChannels := 2 }
  Capabilities := { MaxBlockSize := 8 }
  pHPFBiquad := ()
  pBPFBiquad := ()
  pData := { AGCInstance := (), BypassVolume := (), BypassMixer := { MixerStream0 := { Current := 1, Target := 1 }, MixerStream1 := { Current := 0, Target := 0 }, rest := () } }

/-- Concrete instance: mode OFF, both blend streams settled. -/
def instOFF : LVDBE_Instance_t Unit Unit Unit Unit Unit where
  Params := { OperatingMode := LVDBE_Mode_en.LVDBE_OFF, HPFSelect := LVDBE_Hpf_en.LVDBE_HPF_OFF, NrChannels := 2 }
  Capabilities := { MaxBlockSize := 8 }
  pHPFBiquad := ()
  pBPFBiquad := ()
  pData := { AGCInstance := (), BypassVolume := (), BypassMixer := { MixerStream0 := { Current := 0, Target := 0 }, MixerStream1 := { Current := 1, Target := 1 }, rest := () } }

/-- Concrete instance: mode ON while the bypass-path stream is still
transitioning, so both paths are computed in the same call. -/
def instTrans : LVDBE_Instance_t Unit Unit Unit Unit Unit where
  Params := { OperatingMode := LVDBE_Mode_en.LVDBE_ON, HPFSelect := LVDBE_Hpf_en.LVDBE_HPF_OFF, NrChannels := 2 }
  Capabilities := { MaxBlockSize := 8 }
  pHPFBiquad := ()
  pBPFBiquad := ()
  pData := { AGCInstance := (), BypassVolume := (), BypassMixer := { MixerStream0 := { Current := 1, Target := 1 }, MixerStream1 := { Current := 1, Target := 0 }, rest := () } }

/-- Concrete instance with the largest representable maximum block size,
used to show the guard admits frame counts whose sample count overflows a
signed 16-bit value. -/
def instBig : LVDBE_Instance_t Unit Unit Unit Unit Unit where
  Params := { OperatingMode := LVDBE_Mode_en.LVDBE_OFF, HPFSelect := LVDBE_Hpf_en.LVDBE_HPF_OFF, NrChannels := 2 }
  Capabilities := { MaxBlockSize := 65535 }
  pHPFBiquad := ()
  pBPFBiquad := ()
  pData := { AGCInstance := (), BypassVolume := (), BypassMixer := { MixerStream0 := { Current := 0, Target := 0 }, MixerStream1 := { Current := 1, Target := 1 }, rest := () } }

/-- C1: the routine returns TOO_MANY_SAMPLES exactly when the requested
frame count exceeds the instance's configured maximum block size; on that
failure path it returns immediately with the instance state (all mixer
smoothing, filter and AGC states), the scratch buffer and the output
buffer untouched, and for every frame count within the maximum it returns
SUCCESS. -/
theorem C1_block_size_guard (c : Collaborators H B A V M)
    (inst : LVDBE_Instance_t H B A V M) (scratch pInData pOutData : List Int)
    (NrFrames : Nat) :
    ((LVDBE_Process c inst scratch pInData pOutData NrFrames).1 =
        LVDBE_ReturnStatus_en.LVDBE_TOOMANYSAMPLES ↔
      NrFrames > inst.Capabilities.MaxBlockSize) ∧
    (NrFrames > inst.Capabilities.MaxBlockSize →
      LVDBE_Process c inst scratch pInData pOutData NrFrames =
        (LVDBE_ReturnStatus_en.LVDBE_TOOMANYSAMPLES, inst, scratch, pOutData)) ∧
    (NrFrames ≤ inst.Capabilities.MaxBlockSize →
      (LVDBE_Process c inst scratch pInData pOutData NrFrames).1 =
        LVDBE_ReturnStatus_en.LVDBE_SUCCESS) := by
  by_cases h : NrFrames > inst.Capabilities.MaxBlockSize
  · refine ⟨⟨fun _ => h, fun _ => ?_⟩, fun _ => ?_, fun h2 => absurd h (by omega)⟩
    · simp only [LVDBE_Process, if_pos h]
    · simp only [LVDBE_Process, if_pos h]
  · refine ⟨⟨fun hEq => ?_, fun hgt => absurd hgt h⟩, fun hgt => absurd hgt h,
            fun _ => ?_⟩
    · have hs : (LVDBE_Process c inst scratch pInData pOutData NrFrames).1 =
          LVDBE_ReturnStatus_en.LVDBE_SUCCESS := by
        simp only [LVDBE_Process, if_neg h]
      rw [hs] at hEq
      exact absurd hEq (by simp)
    · simp only [LVDBE_Process, if_neg h]

/-- Witness for C1: a nine-frame call against a maximum of eight fails
untouched, a one-frame call succeeds. -/
theorem C1_block_size_guard_witness :
    LVDBE_Process collabSecond instON (List.replicate 4 0) [1, 2]
        (List.replicate 2 0) 9 =
      (LVDBE_ReturnStatus_en.LVDBE_TOOMANYSAMPLES, instON, List.replicate 4 0,
       List.replicate 2 0) ∧
    (LVDBE_Process collabSecond instON (List.replicate 4 0) [1, 2]
        (List.replicate 2 0) 1).1 = LVDBE_ReturnStatus_en.LVDBE_SUCCESS :=
  ⟨(C1_block_size_guard collabSecond instON (List.replicate 4 0) [1, 2]
      (List.replicate 2 0) 9).2.1 (by decide),
   (C1_block_size_guard collabSecond instON (List.replicate 4 0) [1, 2]
      (List.replicate 2 0) 1).2.2 (by decide)⟩

/-- C2: for every successful call, the enhanced-path scratch region equals
the DBE pipeline output (copy, optional in-place high-pass, downmix,
in-place band-pass, then AGC-and-mix, in that order) exactly when the
operating mode is ON or the blend's enhanced-path stream is still
transitioning, and equals a zero fill otherwise. -/
theorem C2_enhanced_path (c : Collaborators H B A V M)
    (inst : LVDBE_Instance_t H B A V M) (scratch pInData pOutData : List Int)
    (NrFrames : Nat)
    (hlen : CollabLengths c)
    (hch : 1 ≤ inst.Params.NrChannels)
    (hns : inst.Params.NrChannels * NrFrames ≤ 32767)
    (hscr : 2 * (inst.Params.NrChannels * NrFrames) ≤ scratch.length)
    (hmax : NrFrames ≤ inst.Capabilities.MaxBlockSize) :
    readRegion (LVDBE_Process c inst scratch pInData pOutData NrFrames).2.2.1 0
        (inst.Params.NrChannels * NrFrames) = enhancedRegion c inst pInData NrFrames :=
  (LVDBE_Process_parts c inst scratch pInData pOutData NrFrames hlen hch hns hscr
    hmax).2.2.1

/-- Witness for C2 at a concrete two-channel one-frame call in mode ON. -/
theorem C2_enhanced_path_witness :
    readRegion (LVDBE_Process collabFirst instON (List.replicate 4 0) [1, 2]
        (List.replicate 2 0) 1).2.2.1 0 2 =
      enhancedRegion collabFirst instON [1, 2] 1 :=
  C2_enhanced_path collabFirst instON (List.replicate 4 0) [1, 2]
    (List.replicate 2 0) 1 collabFirst_lengths (by decide) (by decide) (by decide)
    (by decide)

/-- C3: for every successful call, the bypass-volume scratch region equals
the smoothed saturating volume adjustment of the raw input exactly when
the operating mode is OFF or the blend's bypass stream is still
transitioning, and a zero fill otherwise; and regardless of which branches
ran, the final two-input smoothed saturating mixer is invoked on the two
regions, its blend written into the caller's output buffer. -/
theorem C3_bypass_and_final_mix (c : Collaborators H B A V M)
    (inst : LVDBE_Instance_t H B A V M) (scratch pInData pOutData : List Int)
    (NrFrames : Nat)
    (hlen : CollabLengths c)
    (hch : 1 ≤ inst.Params.NrChannels)
    (hns : inst.Params.NrChannels * NrFrames ≤ 32767)
    (hscr : 2 * (inst.Params.NrChannels * NrFrames) ≤ scratch.length)
    (hmax : NrFrames ≤ inst.Capabilities.MaxBlockSize) :
    readRegion (LVDBE_Process c inst scratch pInData pOutData NrFrames).2.2.1
        (inst.Params.NrChannels * NrFrames) (inst.Params.NrChannels * NrFrames) =
      bypassRegion c inst pInData NrFrames ∧
    (LVDBE_Process c inst scratch pInData pOutData NrFrames).2.2.2 =
      writeRegion pOutData 0 (mix2Spec c inst pInData NrFrames).1 := by
  have p := LVDBE_Process_parts c inst scratch pInData pOutData NrFrames hlen hch hns
    hscr hmax
  exact ⟨p.2.2.2.1, p.2.2.2.2⟩

/-- Witness for C3 at a concrete two-channel one-frame call in mode OFF. -/
theorem C3_bypass_and_final_mix_witness :
    readRegion (LVDBE_Process collabSecond instOFF (List.replicate 4 0) [1, 2]
        (List.replicate 2 0) 1).2.2.1 2 2 =
      bypassRegion collabSecond instOFF [1, 2] 1 ∧
    (LVDBE_Process collabSecond instOFF (List.replicate 4 0) [1, 2]
        (List.replicate 2 0) 1).2.2.2 =
      writeRegion (List.replicate 2 0) 0 (mix2Spec collabSecond instOFF [1, 2] 1).1 :=
  C3_bypass_and_final_mix collabSecond instOFF (List.replicate 4 0) [1, 2]
    (List.replicate 2 0) 1 collabSecond_lengths (by decide) (by decide) (by decide)
    (by decide)

/-- C4: the two paths are never both zero filled in the same call: when
the DBE path condition fails (so the enhanced region is cleared), the
bypass path condition necessarily holds, because the operating mode is
either ON or OFF. -/
theorem C4_not_both_zero_filled (inst : LVDBE_Instance_t H B A V M)
    (h : dbePathCondition inst = false) : bypassPathCondition inst = true :=
  pathCondition_total inst h

/-- Witness for C4 at a settled mode OFF instance, whose DBE condition is
false. -/
theorem C4_not_both_zero_filled_witness :
    dbePathCondition instOFF = false ∧ bypassPathCondition instOFF = true :=
  ⟨by decide, C4_not_both_zero_filled instOFF (by decide)⟩

/-- C5: with the frame count within the maximum, operating mode OFF and
both blend streams settled, the output block is exactly the bypass-volume
adjustment of the raw input: the enhanced path hands a zero region to the
blend, and the settled blend passes the bypass-volume region through. -/
theorem C5_off_settled (c : Collaborators H B A V M)
    (inst : LVDBE_Instance_t H B A V M) (scratch pInData pOutData : List Int)
    (NrFrames : Nat)
    (hlen : CollabLengths c)
    (hch : 1 ≤ inst.Params.NrChannels)
    (hns : inst.Params.NrChannels * NrFrames ≤ 32767)
    (hscr : 2 * (inst.Params.NrChannels * NrFrames) ≤ scratch.length)
    (hmax : NrFrames ≤ inst.Capabilities.MaxBlockSize)
    (hout : inst.Params.NrChannels * NrFrames ≤ pOutData.length)
    (hmode : inst.Params.OperatingMode = LVDBE_Mode_en.LVDBE_OFF)
    (hset0 : inst.pData.BypassMixer.MixerStream0.Current =
             inst.pData.BypassMixer.MixerStream0.Target)
    (hset1 : inst.pData.BypassMixer.MixerStream1.Current =
             inst.pData.BypassMixer.MixerStream1.Target)
    (hmix2 : ∀ b : List Int, b.length = inst.Params.NrChannels * NrFrames →
      (c.mixSoft_2Mc inst.pData.BypassMixer
        (List.replicate (inst.Params.NrChannels * NrFrames) 0) b
        (toInt16 (NrFrames : Int)) (toInt16 (inst.Params.NrChannels : Int))).1 = b) :
    readRegion (LVDBE_Process c inst scratch pInData pOutData NrFrames).2.2.2 0
        (inst.Params.NrChannels * NrFrames) =
      (bypassVolumeSpec c inst pInData NrFrames).1 := by
  have hd : dbePathCondition inst = false := by
    simp [dbePathCondition, hmode, LVC_Mixer_GetCurrent, LVC_Mixer_GetTarget, hset0]
  have hb : bypassPathCondition inst = true := by
    simp [bypassPathCondition, hmode]
  have p := LVDBE_Process_parts c inst scratch pInData pOutData NrFrames hlen hch hns
    hscr hmax
  rw [p.2.2.2.2]
  have hvlen : (bypassVolumeSpec c inst pInData NrFrames).1.length =
      inst.Params.NrChannels * NrFrames := by
    simp only [bypassVolumeSpec]
    rw [hlen.vol_len, narrowed_prod_toNat NrFrames inst.Params.NrChannels hch hns]
  have hmix : (mix2Spec c inst pInData NrFrames).1 =
      (bypassVolumeSpec c inst pInData NrFrames).1 := by
    simp only [mix2Spec, enhancedRegion, bypassRegion, hd, hb, Bool.false_eq_true,
               if_false, if_true]
    exact hmix2 _ hvlen
  rw [hmix, ← hvlen]
  exact readRegion_writeRegion (by omega)

/-- Witness for C5 at a settled mode OFF instance with the pass-through
blend collaborator. -/
theorem C5_off_settled_witness :
    readRegion (LVDBE_Process collabSecond instOFF (List.replicate 4 0) [1, 2]
        (List.replicate 2 0) 1).2.2.2 0 2 =
      (bypassVolumeSpec collabSecond instOFF [1, 2] 1).1 :=
  C5_off_settled collabSecond instOFF (List.replicate 4 0) [1, 2]
    (List.replicate 2 0) 1 collabSecond_lengths (by decide) (by decide) (by decide)
    (by decide) (by decide) (by decide) (by decide) (by decide)
    (fun b hb => collabSecond_mix2_pass instOFF.pData.BypassMixer
      (List.replicate (instOFF.Params.NrChannels * 1) 0) b 1
      instOFF.Params.NrChannels (by decide) (by decide) hb)

/-- C6: with the frame count within the maximum, operating mode ON and
both blend streams settled, the output block is exactly the fully enhanced
path (copy, optional high-pass, downmix, band-pass, AGC-and-mix): the
bypass side hands a zero region to the blend, and the settled blend passes
the enhanced region through. -/
theorem C6_on_settled (c : Collaborators H B A V M)
    (inst : LVDBE_Instance_t H B A V M) (scratch pInData pOutData : List Int)
    (NrFrames : Nat)
    (hlen : CollabLengths c)
    (hch : 1 ≤ inst.Params.NrChannels)
    (hns : inst.Params.NrChannels * NrFrames ≤ 32767)
    (hscr : 2 * (inst.Params.NrChannels * NrFrames) ≤ scratch.length)
    (hmax : NrFrames ≤ inst.Capabilities.MaxBlockSize)
    (hout : inst.Params.NrChannels * NrFrames ≤ pOutData.length)
    (hmode : inst.Params.OperatingMode = LVDBE_Mode_en.LVDBE_ON)
    (hset0 : inst.pData.BypassMixer.MixerStream0.Current =
             inst.pData.BypassMixer.MixerStream0.Target)
    (hset1 : inst.pData.BypassMixer.MixerStream1.Current =
             inst.pData.BypassMixer.MixerStream1.Target)
    (hmix2 : ∀ a : List Int, a.length = inst.Params.NrChannels * NrFrames →
      (c.mixSoft_2Mc inst.pData.BypassMixer a
        (List.replicate (inst.Params.NrChannels * NrFrames) 0)
        (toInt16 (NrFrames : Int)) (toInt16 (inst.Params.NrChannels : Int))).1 = a) :
    readRegion (LVDBE_Process c inst scratch pInData pOutData NrFrames).2.2.2 0
        (inst.Params.NrChannels * NrFrames) =
      (dbePathSpec c inst pInData NrFrames).1 := by
  have hd : dbePathCondition inst = true := by
    simp [dbePathCondition, hmode]
  have hb : bypassPathCondition inst = false := by
    simp [bypassPathCondition, hmode, LVC_Mixer_GetCurrent, LVC_Mixer_GetTarget, hset1]
  have p := LVDBE_Process_parts c inst scratch pInData pOutData NrFrames hlen hch hns
    hscr hmax
  rw [p.2.2.2.2]
  have hdlen := dbePathSpec_length c inst pInData NrFrames hlen hns
  have hmix : (mix2Spec c inst pInData NrFrames).1 =
      (dbePathSpec c inst pInData NrFrames).1 := by
    simp only [mix2Spec, enhancedRegion, bypassRegion, hd, hb, Bool.false_eq_true,
               if_false, if_true]
    exact hmix2 _ hdlen
  rw [hmix, ← hdlen]
  exact readRegion_writeRegion (by omega)

/-- Witness for C6 at a settled mode ON instance with the pass-through
blend collaborator. -/
theorem C6_on_settled_witness :
    readRegion (LVDBE_Process collabFirst instON (List.replicate 4 0) [1, 2]
        (List.replicate 2 0) 1).2.2.2 0 2 =
      (dbePathSpec collabFirst instON [1, 2] 1).1 :=
  C6_on_settled collabFirst instON (List.replicate 4 0) [1, 2]
    (List.replicate 2 0) 1 collabFirst_lengths (by decide) (by decide) (by decide)
    (by decide) (by decide) (by decide) (by decide) (by decide)
    (fun a ha => collabFirst_mix2_pass instON.pData.BypassMixer a
      (List.replicate (instON.Params.NrChannels * 1) 0) 1
      instON.Params.NrChannels (by decide) (by decide) ha)

/-- C7: in a call where both paths are computed, the result does not
depend on the prior contents of the scratch buffer, in particular not on
the mono region's prior contents that the bypass-volume region reuses: two
runs from different scratch contents produce the same output block, the
same final bypass-volume region and the same final instance state. -/
theorem C7_scratch_reuse_noninterference (c : Collaborators H B A V M)
    (inst : LVDBE_Instance_t H B A V M)
    (scratchA scratchB pInData pOutData : List Int) (NrFrames : Nat)
    (hlen : CollabLengths c)
    (hch : 1 ≤ inst.Params.NrChannels)
    (hns : inst.Params.NrChannels * NrFrames ≤ 32767)
    (hscrA : 2 * (inst.Params.NrChannels * NrFrames) ≤ scratchA.length)
    (hscrB : 2 * (inst.Params.NrChannels * NrFrames) ≤ scratchB.length)
    (hmax : NrFrames ≤ inst.Capabilities.MaxBlockSize)
    (hd : dbePathCondition inst = true) (hb : bypassPathCondition inst = true) :
    (LVDBE_Process c inst scratchA pInData pOutData NrFrames).2.2.2 =
      (LVDBE_Process c inst scratchB pInData pOutData NrFrames).2.2.2 ∧
    readRegion (LVDBE_Process c inst scratchA pInData pOutData NrFrames).2.2.1
        (inst.Params.NrChannels * NrFrames) (inst.Params.NrChannels * NrFrames) =
      readRegion (LVDBE_Process c inst scratchB pInData pOutData NrFrames).2.2.1
        (inst.Params.NrChannels * NrFrames) (inst.Params.NrChannels * NrFrames) ∧
    (LVDBE_Process c inst scratchA pInData pOutData NrFrames).2.1 =
      (LVDBE_Process c inst scratchB pInData pOutData NrFrames).2.1 := by
  have pA := LVDBE_Process_parts c inst scratchA pInData pOutData NrFrames hlen hch
    hns hscrA hmax
  have pB := LVDBE_Process_parts c inst scratchB pInData pOutData NrFrames hlen hch
    hns hscrB hmax
  exact ⟨pA.2.2.2.2.trans pB.2.2.2.2.symm,
         pA.2.2.2.1.trans pB.2.2.2.1.symm,
         pA.2.1.trans pB.2.1.symm⟩

/-- Witness for C7: a transitioning instance run from an all-zero scratch
and from a scratch holding stale values gives identical results. -/
theorem C7_scratch_reuse_noninterference_witness :
    (LVDBE_Process collabSecond instTrans (List.replicate 4 0) [1, 2]
        (List.replicate 2 0) 1).2.2.2 =
      (LVDBE_Process collabSecond instTrans [5, 6, 7, 8] [1, 2]
        (List.replicate 2 0) 1).2.2.2 ∧
    readRegion (LVDBE_Process collabSecond instTrans (List.replicate 4 0) [1, 2]
        (List.replicate 2 0) 1).2.2.1 2 2 =
      readRegion (LVDBE_Process collabSecond instTrans [5, 6, 7, 8] [1, 2]
        (List.replicate 2 0) 1).2.2.1 2 2 ∧
    (LVDBE_Process collabSecond instTrans (List.replicate 4 0) [1, 2]
        (List.replicate 2 0) 1).2.1 =
      (LVDBE_Process collabSecond instTrans [5, 6, 7, 8] [1, 2]
        (List.replicate 2 0) 1).2.1 :=
  C7_scratch_reuse_noninterference collabSecond instTrans (List.replicate 4 0)
    [5, 6, 7, 8] [1, 2] (List.replicate 2 0) 1 collabSecond_lengths (by decide)
    (by decide) (by decide) (by decide) (by decide) (by decide) (by decide)

/-- C8: a call with frame count zero is a safe no-op: it returns SUCCESS,
writes nothing to the output buffer and leaves the instance state (filter,
AGC and all mixer smoothing states) unchanged, the collaborators being
no-ops on zero frames. -/
theorem C8_zero_frames_noop (c : Collaborators H B A V M)
    (inst : LVDBE_Instance_t H B A V M) (scratch pInData pOutData : List Int)
    (hlen : CollabLengths c)
    (hch : 1 ≤ inst.Params.NrChannels)
    (hhpf0 : ∀ st src, (c.hpfProcess st src 0).2 = st)
    (hbpf0 : ∀ st src, (c.bpfProcess st src 0).2 = st)
    (hagc0 : ∀ st src mono ch, (c.agcMixVol st src mono 0 ch).2 = st)
    (hvol0 : ∀ st src ch, (c.mixSoft_Mc st src (toInt16 ((0 : Nat) : Int)) ch).2 = st)
    (hmix0 : ∀ st a b ch, (c.mixSoft_2Mc st a b (toInt16 ((0 : Nat) : Int)) ch).2 = st) :
    (LVDBE_Process c inst scratch pInData pOutData 0).1 =
      LVDBE_ReturnStatus_en.LVDBE_SUCCESS ∧
    (LVDBE_Process c inst scratch pInData pOutData 0).2.1 = inst ∧
    (LVDBE_Process c inst scratch pInData pOutData 0).2.2.2 = pOutData := by
  have p := LVDBE_Process_parts c inst scratch pInData pOutData 0 hlen hch (by simp)
    (by simp) (Nat.zero_le _)
  have h0 : toInt16 ((0 : Nat) : Int) = 0 := by decide
  refine ⟨p.1, ?_, ?_⟩
  · rw [p.2.1]
    have e1 : (dbePathSpec c inst pInData 0).2.1 = inst.pHPFBiquad := by
      simp only [dbePathSpec]
      by_cases hh : inst.Params.HPFSelect = LVDBE_Hpf_en.LVDBE_HPF_ON
      · rw [if_pos hh, hhpf0]
      · rw [if_neg hh]
    have e2 : (dbePathSpec c inst pInData 0).2.2.1 = inst.pBPFBiquad := by
      simp only [dbePathSpec]
      exact hbpf0 _ _
    have e3 : (dbePathSpec c inst pInData 0).2.2.2 = inst.pData.AGCInstance := by
      simp only [dbePathSpec]
      exact hagc0 _ _ _ _
    have e4 : (bypassVolumeSpec c inst pInData 0).2 = inst.pData.BypassVolume := by
      simp only [bypassVolumeSpec]
      exact hvol0 _ _ _
    have e5 : (mix2Spec c inst pInData 0).2 = inst.pData.BypassMixer := by
      simp only [mix2Spec]
      exact hmix0 _ _ _ _
    simp only [finalInstanceSpec, e1, e2, e3, e4, e5]
    cases inst with
    | mk P Cp hh bb d =>
      cases d with
      | mk ag bv bm => simp
  · rw [p.2.2.2.2]
    have hmlen : (mix2Spec c inst pInData 0).1.length = 0 := by
      simp only [mix2Spec]
      rw [hlen.mix2_len, h0, zero_mul]
      rfl
    rw [List.eq_nil_of_length_eq_zero hmlen]
    simp [writeRegion]

/-- Witness for C8: a zero-frame call at a concrete mode ON instance. -/
theorem C8_zero_frames_noop_witness :
    (LVDBE_Process collabSecond instON (List.replicate 4 0) [1, 2]
        (List.replicate 2 0) 0).1 = LVDBE_ReturnStatus_en.LVDBE_SUCCESS ∧
    (LVDBE_Process collabSecond instON (List.replicate 4 0) [1, 2]
        (List.replicate 2 0) 0).2.1 = instON ∧
    (LVDBE_Process collabSecond instON (List.replicate 4 0) [1, 2]
        (List.replicate 2 0) 0).2.2.2 = List.replicate 2 0 :=
  C8_zero_frames_noop collabSecond instON (List.replicate 4 0) [1, 2]
    (List.replicate 2 0) collabSecond_lengths (by decide)
    (fun _st _src => rfl) (fun _st _src => rfl) (fun _st _src _mono _ch => rfl)
    (fun _st _src _ch => rfl) (fun _st _a _b _ch => rfl)

/-- C9: every successful call writes exactly channels times frames samples
at the start of the caller's output buffer (the final blend of the two
scratch regions), preserves the output buffer's length, and leaves every
sample beyond that extent unchanged. -/
theorem C9_output_extent (c : Collaborators H B A V M)
    (inst : LVDBE_Instance_t H B A V M) (scratch pInData pOutData : List Int)
    (NrFrames : Nat)
    (hlen : CollabLengths c)
    (hch : 1 ≤ inst.Params.NrChannels)
    (hns : inst.Params.NrChannels * NrFrames ≤ 32767)
    (hscr : 2 * (inst.Params.NrChannels * NrFrames) ≤ scratch.length)
    (hmax : NrFrames ≤ inst.Capabilities.MaxBlockSize)
    (hout : inst.Params.NrChannels * NrFrames ≤ pOutData.length) :
    (LVDBE_Process c inst scratch pInData pOutData NrFrames).2.2.2.length =
      pOutData.length ∧
    readRegion (LVDBE_Process c inst scratch pInData pOutData NrFrames).2.2.2 0
        (inst.Params.NrChannels * NrFrames) = (mix2Spec c inst pInData NrFrames).1 ∧
    (LVDBE_Process c inst scratch pInData pOutData NrFrames).2.2.2.drop
        (inst.Params.NrChannels * NrFrames) =
      pOutData.drop (inst.Params.NrChannels * NrFrames) := by
  have p := LVDBE_Process_parts c inst scratch pInData pOutData NrFrames hlen hch hns
    hscr hmax
  have hmlen : (mix2Spec c inst pInData NrFrames).1.length =
      inst.Params.NrChannels * NrFrames := by
    simp only [mix2Spec]
    rw [hlen.mix2_len, narrowed_prod_toNat NrFrames inst.Params.NrChannels hch hns]
  rw [p.2.2.2.2]
  refine ⟨?_, ?_, ?_⟩
  · exact writeRegion_length (by omega)
  · rw [← hmlen]
    exact readRegion_writeRegion (by omega)
  · rw [← hmlen]
    exact writeRegion_drop pOutData _

/-- Witness for C9 at a concrete two-channel one-frame call. -/
theorem C9_output_extent_witness :
    (LVDBE_Process collabSecond instOFF (List.replicate 4 0) [1, 2]
        (List.replicate 3 9) 1).2.2.2.length = 3 ∧
    readRegion (LVDBE_Process collabSecond instOFF (List.replicate 4 0) [1, 2]
        (List.replicate 3 9) 1).2.2.2 0 2 = (mix2Spec collabSecond instOFF [1, 2] 1).1 ∧
    (LVDBE_Process collabSecond instOFF (List.replicate 4 0) [1, 2]
        (List.replicate 3 9) 1).2.2.2.drop 2 = (List.replicate 3 9).drop 2 :=
  C9_output_extent collabSecond instOFF (List.replicate 4 0) [1, 2]
    (List.replicate 3 9) 1 collabSecond_lengths (by decide) (by decide) (by decide)
    (by decide) (by decide)

/-- C10: the sample count handed to the collaborators is the product of
channels and frames narrowed to a signed 16-bit value; the narrowing is
the identity exactly up to 32767, and the block-size guard (frames against
the maximum block size only) does not enforce that bound: a two-channel
call of 20000 frames passes the guard and returns SUCCESS while its sample
count 40000 is corrupted by the narrowing. -/
theorem C10_narrowed_counts :
    (∀ ch f : Nat, ch * f ≤ 32767 →
      toInt16 ((ch * f : Nat) : Int) = ((ch * f : Nat) : Int)) ∧
    (LVDBE_Process collabSecond instBig [] [] [] 20000).1 =
      LVDBE_ReturnStatus_en.LVDBE_SUCCESS ∧
    toInt16 ((instBig.Params.NrChannels * 20000 : Nat) : Int) ≠
      ((instBig.Params.NrChannels * 20000 : Nat) : Int) :=
  ⟨fun ch f h => toInt16_coe_eq (ch * f) h, rfl, by decide⟩

/-- Witness for C10: the narrowing bound instantiated at six samples. -/
theorem C10_narrowed_counts_witness :
    toInt16 ((2 * 3 : Nat) : Int) = ((2 * 3 : Nat) : Int) :=
  C10_narrowed_counts.1 2 3 (by decide)

end LVDBE
